import Mathlib

/-!
Verification development for the Nexus-360 response-orchestration engine.

The Python modules under `chatbot/utils/` are shallowly embedded below:

* `chatbot_service.py`  — `ChatbotService.get_response`, `_try_fallback_model`,
  `_is_sql_query`, `_is_search_query`;
* `gemini_client.py`    — `GeminiClient.get_chatbot_response`;
* `openai_client.py`    — `OpenAIClient.get_chatbot_response`, `_use_gemini_fallback`;
* `google_sheets.py`    — `GoogleSheetsClient.get_all_projects`;
* `sql_database_client.py` — `SQLDatabaseClient._is_safe_query`, `execute_query`;
* `google_search.py`    — `GoogleSearchClient._log_search_metrics`, `get_search_context`.

Network calls, the Django cache backend and the AI providers are modelled as
explicit oracle values (`Except`-valued outcomes or streams of outcomes), and
every function additionally returns a trace of the externally visible effects
(data fetches, provider invocations, backoff sleeps) that the properties talk
about.
-/

namespace Nexus360

/-! ### Python string primitives used by the embedded code -/

/-- ASCII whitespace as recognised by Python `str.split()` / `str.strip()`
(space, tab, newline, carriage return, vertical tab, form feed). -/
def pyIsSpace (c : Char) : Bool :=
  c = ' ' || c = '\t' || c = '\n' || c = '\r' || c = '\x0b' || c = '\x0c'

/-- Python `str.lower()` (ASCII range, which is all the embedded code uses). -/
def lowerStr (s : String) : String := ⟨s.data.map Char.toLower⟩

/-- Python `str.upper()` (ASCII range). -/
def upperStr (s : String) : String := ⟨s.data.map Char.toUpper⟩

/-- Python `str.strip()`: drop leading and trailing whitespace. -/
def pyStrip (s : String) : String :=
  ⟨((s.data.dropWhile pyIsSpace).reverse.dropWhile pyIsSpace).reverse⟩

/-- Does `p` occur as a contiguous sublist of the second argument? -/
def subListB (p : List Char) : List Char → Bool
  | [] => decide (p = [])
  | c :: rest => List.isPrefixOf p (c :: rest) || subListB p rest

/-- Python `needle in hay` on strings (substring containment). -/
def pyIn (needle hay : String) : Bool := subListB needle.data hay.data

/-- Helper for `pySplit`: walks the character list keeping the (reversed)
current token in the accumulator. -/
def splitWsAux : List Char → List Char → List (List Char)
  | [], acc => if acc = [] then [] else [acc.reverse]
  | c :: rest, acc =>
    if pyIsSpace c then
      if acc = [] then splitWsAux rest []
      else acc.reverse :: splitWsAux rest []
    else splitWsAux rest (c :: acc)

/-- Python `str.split()` with no separator: split on runs of whitespace,
discarding empty tokens. -/
def pySplit (s : String) : List String := (splitWsAux s.data []).map List.asString

/-! ### `chatbot_service.py`: query classifiers

`_is_sql_query` scores with weights 1 and 0.5 against a threshold of 1.5,
`_is_search_query` with weights 1, 0.7 and -1 against a threshold of 1.0.
All reachable scores are integer multiples of 0.1, and no reachable score other
than an exact integer can land on a threshold (the 0.7-weighted contribution can
never bring the total exactly to the threshold), so scoring in integer tenths
with an `Int` is an exact model of the Python float arithmetic. -/

/-- The `sql_indicators` list of `ChatbotService._is_sql_query`. -/
def sqlIndicators : List String :=
  ["select", "query", "join", "where", "group by", "filter",
   "fetch", "retrieve", "show me data", "search for", "find all",
   "database", "table", "sql", "count"]

/-- The `question_patterns` list of `ChatbotService._is_sql_query`. -/
def sqlQuestionPatterns : List String :=
  ["how many", "list all", "show me", "which", "what are", "who has",
   "find", "search for", "where can i find"]

/-- `ChatbotService._is_sql_query`: weighted keyword scoring, threshold 1.5
(score kept in tenths: indicators score 10, question patterns 5, threshold 15). -/
def isSqlQuery (prompt : String) : Bool :=
  let promptLower := lowerStr prompt
  let score : Int :=
    (sqlIndicators.foldl (fun s kw => if pyIn kw promptLower then s + 10 else s) 0) +
    (sqlQuestionPatterns.foldl (fun s kw => if pyIn kw promptLower then s + 5 else s) 0)
  score ≥ 15

/-- The `search_indicators` list of `ChatbotService._is_search_query`,
transcribed in order (note that `"update"` occurs twice in the source and
therefore scores twice). -/
def searchIndicators : List String :=
  ["latest", "recent", "current", "news", "today", "yesterday",
   "this week", "this month", "this year", "update", "updated",
   "happened", "trending", "released", "announced", "launch", "launched",
   "breaking", "event", "events",
   "stock", "price", "prices", "market",
   "covid", "pandemic", "election", "weather",
   "2024", "2025",
   "now", "currently", "at the moment", "right now", "as of",
   "up to date", "up-to-date", "real time", "real-time",
   "live", "immediate", "instantly",
   "developments", "progress", "advancement", "innovation",
   "breakthrough", "update", "revision", "changes",
   "report", "reports", "article", "study", "research",
   "publication", "findings", "discovery", "announcement",
   "define", "explain", "who is", "what is", "how to", "why do",
   "compare", "difference between", "pros and cons",
   "best practice", "tutorial", "guide", "statistics", "data on"]

/-- The `question_patterns` list of `ChatbotService._is_search_query`. -/
def searchQuestionPatterns : List String :=
  ["what is the latest", "how recent", "when did", "what happened",
   "tell me about", "is there any news", "what\x27s new", "what are some recent",
   "what\x27s happening", "what\x27s going on", "any updates on",
   "current status of", "latest news about", "recent developments in",
   "what\x27s the current", "how is", "what are the current trends",
   "latest information on", "recent updates about", "current state of",
   "what\x27s the situation with", "any recent news about",
   "current events", "breaking news", "recent reports on"]

/-- `ChatbotService._is_search_query`: weighted scoring, threshold 1.0
(score kept in tenths: indicators 10, question patterns 7, a -10 penalty when
the prompt mentions the database explicitly, threshold 10). -/
def isSearchQuery (prompt : String) : Bool :=
  let promptLower := lowerStr prompt
  let base : Int :=
    (searchIndicators.foldl (fun s kw => if pyIn kw promptLower then s + 10 else s) 0) +
    (searchQuestionPatterns.foldl (fun s kw => if pyIn kw promptLower then s + 7 else s) 0)
  let databaseFocused :=
    pyIn "in the database" promptLower || pyIn "in our data" promptLower ||
    pyIn "in the sheet" promptLower
  let score := if databaseFocused then base - 10 else base
  score ≥ 10

/-! ### `gemini_client.py` and `openai_client.py`: provider clients

The network call itself is an oracle (`Except`-valued outcome, or a stream of
outcomes indexed by attempt number for the retrying OpenAI client).  Prompt and
system-message construction is pure string plumbing that none of the properties
depend on, so the embeddings keep only the control flow around the oracles,
which is what determines the returned text and the raised exceptions. -/

/-- `GeminiClient.get_chatbot_response`: the whole body is wrapped in
`try/except`, so the function never raises — on any exception it returns a
message embedding the raw exception text. -/
def geminiGetChatbotResponse (apiOutcome : Except String String) : String :=
  match apiOutcome with
  | .ok text => text
  | .error e =>
    "I encountered an error while using my fallback AI service: " ++ e ++
    ". Please try again later."

/-- One outcome of the OpenAI chat-completions call. -/
inductive OpenAIApiOutcome where
  | success (text : String)
  | timeout
  | rateLimit
  | apiError (msg : String)
  | otherError (msg : String)
deriving DecidableEq

/-- `OpenAIClient._use_gemini_fallback`. The embedded Gemini client never
raises (see `geminiGetChatbotResponse`), so the `except` arm of the Python
function is unreachable and the successful arm always appends the backup
notice. -/
def openaiUseGeminiFallback (geminiAvailable : Bool)
    (geminiOutcome : Except String String) (errorReason : String) : String :=
  if !geminiAvailable then
    "I\x27m currently experiencing issues with my primary AI service (" ++ errorReason ++
    "). Unfortunately, the backup service is also not available. " ++
    "Please try again in a few minutes or contact support if this persists."
  else
    geminiGetChatbotResponse geminiOutcome ++
    "\n\n(Answered using Google Gemini 2.5-Flash as backup due to OpenAI being temporarily unavailable)"

/-- The fixed message `OpenAIClient.get_chatbot_response` returns when the API
reports `context_length_exceeded`. -/
def openaiTooLongMsg : String :=
  "Your conversation is too long for me to process. Please try starting a new conversation or ask a shorter question."

/-- The retry loop of `OpenAIClient.get_chatbot_response` (`max_retries = 5`).
`retries` is the Python loop variable; `fuel` bounds the iteration count (the
loop runs while `retries <= max_retries`, so `max_retries + 1` iterations
suffice and the fuel-exhausted arm is the unreachable fall-through after the
`while`).  Returns the text together with the number of backoff sleeps. -/
def openaiLoop (outcomes : Nat → OpenAIApiOutcome) (maxRetries : Nat)
    (geminiAvailable : Bool) (geminiOutcome : Except String String) :
    Nat → Nat → Nat → String × Nat
  | 0, _, sleeps =>
    (openaiUseGeminiFallback geminiAvailable geminiOutcome "Maximum retries exceeded", sleeps)
  | fuel + 1, retries, sleeps =>
    match outcomes retries with
    | .success t => (t, sleeps)
    | .timeout =>
      if retries < maxRetries then
        openaiLoop outcomes maxRetries geminiAvailable geminiOutcome fuel (retries + 1) (sleeps + 1)
      else
        (openaiUseGeminiFallback geminiAvailable geminiOutcome "OpenAI API request timed out", sleeps)
    | .rateLimit =>
      if retries < maxRetries then
        openaiLoop outcomes maxRetries geminiAvailable geminiOutcome fuel (retries + 1) (sleeps + 1)
      else
        (openaiUseGeminiFallback geminiAvailable geminiOutcome "OpenAI rate limit exceeded", sleeps)
    | .apiError msg =>
      if pyIn "model_not_found" msg then
        (openaiUseGeminiFallback geminiAvailable geminiOutcome "OpenAI model not found", sleeps)
      else if pyIn "context_length_exceeded" msg then
        (openaiTooLongMsg, sleeps)
      else if retries < maxRetries then
        openaiLoop outcomes maxRetries geminiAvailable geminiOutcome fuel (retries + 1) (sleeps + 1)
      else
        (openaiUseGeminiFallback geminiAvailable geminiOutcome msg, sleeps)
    | .otherError msg =>
      (openaiUseGeminiFallback geminiAvailable geminiOutcome msg, sleeps)

/-- `OpenAIClient.get_chatbot_response`: raises `ValueError` when the API key
is not configured, otherwise runs the retry loop (which never raises). -/
def openaiGetChatbotResponse (apiKeyConfigured : Bool)
    (outcomes : Nat → OpenAIApiOutcome) (geminiAvailable : Bool)
    (geminiOutcome : Except String String) : Except String (String × Nat) :=
  if !apiKeyConfigured then
    .error "OpenAI API key is not configured. Please check your .env file."
  else
    .ok (openaiLoop outcomes 5 geminiAvailable geminiOutcome 6 0 0)

/-! ### `chatbot_service.py`: `get_response` and `_try_fallback_model` -/

/-- One turn of conversation history. -/
structure Msg where
  role : String
  content : String
deriving DecidableEq

/-- The arguments of `ChatbotService.get_response`. -/
structure Args where
  prompt : String
  context : Option String
  history : List Msg
  useCache : Bool
  sheetName : Option String
  preferredModel : String

/-- The response dictionary produced by `ChatbotService.get_response`.
`sheetName` is `none` at the return sites whose dictionary has no
`sheet_name` key. -/
structure Response where
  response : String
  source : String
  sheetName : Option String
  error : Option String
deriving DecidableEq

/-- Externally visible effects of one `get_response` call: how often
`get_database_data` ran, the history passed at each primary-provider
invocation, the number of fallback-provider invocations, and the number of
backoff sleeps. -/
structure Trace where
  dbFetchCalls : Nat
  primaryCalls : List (List Msg)
  fallbackCalls : Nat
  sleeps : Nat
deriving DecidableEq

/-- Oracles for the external dependencies of one `get_response` call. -/
structure ServiceEnv where
  /-- `self.get_database_data(use_cache=...)`: `.error` models the exception
  caught at the top of `get_response`, `.ok none` the `None` the helper
  returns when it swallows an error itself. -/
  dbFetch : Except String (Option String)
  /-- `settings.USE_SQL_DATABASE`. -/
  useSqlDatabase : Bool
  /-- Net outcome of the direct-SQL branch (model generation, execution and
  formatting, lines 151-232 of the source): `some text` when the branch
  returns its `sql-query` dictionary with that response text, `none` when it
  falls through to the standard path (query error or exception). -/
  sqlBranch : Option String
  /-- `self._get_search_enhanced_context(prompt)`: never raises; returns the
  empty string when search fails. -/
  searchContext : String
  /-- The `primary_client.get_chatbot_response(...)` invocation: either the
  returned text or the text of the raised exception. -/
  primaryOutcome : Except String String
  /-- The `fallback_client.get_chatbot_response(...)` invocation at each
  attempt of `_try_fallback_model`. -/
  fallbackOutcomes : Nat → Except String String

/-- The rate-limit classification of `_try_fallback_model`. -/
def isRateLimitText (e : String) : Bool :=
  pyIn "rate limit" (lowerStr e) || pyIn "too many requests" (lowerStr e) ||
  pyIn "429" (lowerStr e)

/-- The authentication/configuration classification of `get_response`. -/
def isAuthText (e : String) : Bool :=
  pyIn "api key" (lowerStr e) || pyIn "authentication" (lowerStr e)

/-- The retry loop of `_try_fallback_model` (`max_retries` is
`self.rate_limit_retries = 3`).  `remaining + attempt = max_retries`, so the
`attempt == max_retries - 1` test of the source is `remaining = 1`; the
fuel-exhausted arm is the `Max retries exceeded` return after the `for`.
Returns the response dictionary, the number of fallback invocations and the
number of backoff sleeps. -/
def tryFallbackGo (outcomes : Nat → Except String String) (name : String) :
    Nat → Nat → Nat → Nat → Response × Nat × Nat
  | 0, _, calls, sleeps =>
    ({ response := "I\x27m experiencing connectivity issues. Please try again later.",
       source := "error", sheetName := none, error := some "Max retries exceeded" },
     calls, sleeps)
  | remaining + 1, attempt, calls, sleeps =>
    match outcomes attempt with
    | .ok text =>
      ({ response := text, source := name, sheetName := none, error := none },
       calls + 1, sleeps)
    | .error fe =>
      if isRateLimitText fe then
        if remaining = 0 then
          ({ response := "I\x27m sorry, both AI services are currently experiencing high demand. Please try again in a few minutes.",
             source := "error", sheetName := none,
             error := some "All models experiencing rate limits" },
           calls + 1, sleeps)
        else
          tryFallbackGo outcomes name remaining (attempt + 1) (calls + 1) (sleeps + 1)
      else
        ({ response := "I\x27m sorry, I\x27m having trouble processing your request right now. Please try again with a simpler query.",
           source := "error", sheetName := none, error := some ("Error: " ++ fe) },
         calls + 1, sleeps)

/-- `ChatbotService._try_fallback_model` with
`self.rate_limit_retries = 3`. -/
def tryFallbackModel (outcomes : Nat → Except String String) (name : String) :
    Response × Nat × Nat :=
  tryFallbackGo outcomes name 3 0 0 0

/-- The primary model name selected by `get_response`. -/
def primaryName (args : Args) : String :=
  if args.preferredModel = "openai" then "openai" else "gemini"

/-- The fallback model name selected by `get_response`. -/
def fallbackName (args : Args) : String :=
  if args.preferredModel = "openai" then "gemini" else "openai"

/-- `ChatbotService.get_response`, returning the response dictionary and the
effect trace. -/
def getResponse (args : Args) (env : ServiceEnv) : Response × Trace :=
  let isSql := isSqlQuery args.prompt
  let isSearch := isSearchQuery args.prompt
  match env.dbFetch with
  | .error e =>
    ({ response := "I\x27m having trouble accessing the database. Please try again later. Error: " ++ e,
       source := "error", sheetName := none, error := some e },
     { dbFetchCalls := 1, primaryCalls := [], fallbackCalls := 0, sleeps := 0 })
  | .ok _ =>
    let searchCtx := if isSearch then env.searchContext else ""
    match if isSql && env.useSqlDatabase then env.sqlBranch else none with
    | some sqlText =>
      ({ response := sqlText, source := "sql-query", sheetName := args.sheetName,
         error := none },
       { dbFetchCalls := 1, primaryCalls := [], fallbackCalls := 0, sleeps := 0 })
    | none =>
      let source := if searchCtx ≠ "" then primaryName args ++ "-with-search"
                    else primaryName args
      match env.primaryOutcome with
      | .ok text =>
        ({ response := text, source := source, sheetName := args.sheetName,
           error := none },
         { dbFetchCalls := 1, primaryCalls := [args.history], fallbackCalls := 0,
           sleeps := 0 })
      | .error e =>
        if isAuthText e then
          ({ response := "There\x27s an issue with the " ++ upperStr (primaryName args) ++
               " API configuration. Please check your API key settings.",
             source := "error", sheetName := none, error := some e },
           { dbFetchCalls := 1, primaryCalls := [args.history], fallbackCalls := 0,
             sleeps := 0 })
        else
          let (resp, calls, sleeps) := tryFallbackModel env.fallbackOutcomes (fallbackName args)
          (resp,
           { dbFetchCalls := 1, primaryCalls := [args.history],
             fallbackCalls := calls, sleeps := sleeps })

/-! ### `google_sheets.py`: `GoogleSheetsClient.get_all_projects`

The Django cache is an association list from key to value; TTL expiry is not
modelled because the properties below involve no passage of time.  A record
(Python dict) is a structure whose `_source_sheet` entry is the `sourceSheet`
field. -/

/-- One project record from the `Projects` worksheet. -/
structure Project where
  fields : List (String × String)
  sourceSheet : Option String
deriving DecidableEq

/-- Connection state of the `GoogleSheetsClient` plus the Django cache. -/
structure SheetsState where
  cache : List (String × List Project)
  clientConnected : Bool
deriving DecidableEq

/-- Oracles for one window of Google Sheets API activity. -/
structure SheetsEnv where
  /-- Outcome of `self.connect()`. -/
  connectOk : Bool
  /-- Outcome of `open_by_key(...).worksheet("Projects").get_all_records()`. -/
  fetchRecords : Except String (List Project)

/-- `cache.get(key)` on the association-list cache. -/
def cacheGet (cache : List (String × List Project)) (key : String) :
    Option (List Project) :=
  (cache.find? (fun kv => kv.1 = key)).map Prod.snd

/-- `cache.set(key, value, timeout)` (timeout not modelled). -/
def cacheSet (cache : List (String × List Project)) (key : String)
    (value : List Project) : List (String × List Project) :=
  (key, value) :: cache.filter (fun kv => kv.1 ≠ key)

/-- `GoogleSheetsClient.get_all_projects(sheet_name, use_cache)`: returns the
project list, the updated state, and how often the underlying store adapter
(the `gspread` fetch) was invoked.  Python truthiness of `if cached_data:`
means a cached empty list does not count as a hit. -/
def getAllProjects (sheetName : Option String) (useCache : Bool)
    (st : SheetsState) (env : SheetsEnv) : List Project × SheetsState × Nat :=
  let key := "projects_" ++ sheetName.getD "default"
  let cachedData := if useCache then cacheGet st.cache key else none
  if (cachedData.getD []) ≠ [] then
    (cachedData.getD [], st, 0)
  else if !st.clientConnected && !env.connectOk then
    ([], st, 0)
  else
    let st1 : SheetsState := { st with clientConnected := true }
    match env.fetchRecords with
    | .ok records =>
      let annotated := records.map
        (fun p => { p with sourceSheet := some (sheetName.getD "default") })
      (annotated, { st1 with cache := cacheSet st1.cache key annotated }, 1)
    | .error _ => ([], st1, 1)

/-! ### `sql_database_client.py`: safe-mode query execution -/

/-- The `unsafe_keywords` list of `SQLDatabaseClient._is_safe_query`. -/
def unsafeKeywords : List String :=
  ["drop", "delete", "update", "insert", "alter", "truncate", "create", "replace"]

/-- `SQLDatabaseClient._is_safe_query`: strip and lowercase the query, then
reject it iff one of the unsafe keywords occurs among its
whitespace-separated words (`keyword in query.split()`). -/
def isSafeQuery (query : String) : Bool :=
  let q := lowerStr (pyStrip query)
  !(unsafeKeywords.any (fun kw => (pySplit q).contains kw))

/-- Result of `SQLDatabaseClient.execute_query`: either a pandas data frame of
rows or the single-column `{"error": [msg]}` frame. -/
inductive ExecResult where
  | errorFrame (msg : String)
  | data (rows : List (List (String × String)))
deriving DecidableEq

/-- The fixed message of the blocked-for-security error frame. -/
def blockedMsg : String :=
  "This query contains unsafe operations and was blocked for security reasons."

/-- `SQLDatabaseClient.execute_query(query, params, safe_mode)`: block unsafe
queries in safe mode, otherwise run the query (`pd.read_sql` outcome given by
the oracle `dbRun`), converting exceptions into an error frame. -/
def executeQuery (query : String) (safeMode : Bool)
    (dbRun : Except String (List (List (String × String)))) : ExecResult :=
  if safeMode && !(isSafeQuery query) then .errorFrame blockedMsg
  else
    match dbRun with
    | .ok rows => .data rows
    | .error e => .errorFrame ("Error executing query: " ++ e)

/-! ### `google_search.py`: search metrics -/

/-- One entry of the `error_details` list of the daily metrics record. -/
structure ErrorDetail where
  timestamp : String
  query : String
  error : String
  statusCode : Option Nat
deriving DecidableEq

/-- The daily search-metrics record stored in the Django cache.
`totalResponseTime` is a rational standing in for the Python float; no
property below depends on its arithmetic. -/
structure SearchMetrics where
  totalSearches : Nat
  successfulSearches : Nat
  failedSearches : Nat
  cachedSearches : Nat
  totalResponseTime : ℚ
  errorDetails : List ErrorDetail
deriving DecidableEq

/-- The default record `cache.get(metrics_key, {...})` starts from. -/
def zeroMetrics : SearchMetrics :=
  { totalSearches := 0, successfulSearches := 0, failedSearches := 0,
    cachedSearches := 0, totalResponseTime := 0, errorDetails := [] }

/-- The arguments of one `_log_search_metrics` call (the timestamp is the
formatted `datetime.now()`). -/
structure LogEvent where
  timestamp : String
  query : String
  success : Bool
  errorMsg : Option String
  responseTime : Option ℚ
  cached : Bool
  statusCode : Option Nat

/-- The cache update performed by `GoogleSearchClient._log_search_metrics` on
the daily record. -/
def applyLogEvent (m : SearchMetrics) (e : LogEvent) : SearchMetrics :=
  let m := { m with totalSearches := m.totalSearches + 1 }
  if e.success then
    let m := { m with successfulSearches := m.successfulSearches + 1 }
    if e.cached then
      { m with cachedSearches := m.cachedSearches + 1 }
    else
      match e.responseTime with
      | some rt => { m with totalResponseTime := m.totalResponseTime + rt }
      | none => m
  else
    let m := { m with failedSearches := m.failedSearches + 1 }
    match e.errorMsg with
    | some msg =>
      { m with errorDetails := m.errorDetails ++
          [{ timestamp := e.timestamp, query := e.query, error := msg,
             statusCode := e.statusCode }] }
    | none => m

/-- The daily record after a day of `_log_search_metrics` calls, starting from
the zero record. -/
def metricsAfter (events : List LogEvent) : SearchMetrics :=
  events.foldl applyLogEvent zeroMetrics

/-! ### `google_search.py`: `get_search_context`

Decimal rendering of the 1-based source index (`i+1` in the Python
f-strings).  `natToDec` is the standard decimal notation, matching Python
`str(n)`; it is defined from first principles so that its characters and its
injectivity can be reasoned about directly. -/

/-- Decimal digits of `n`, least significant first (`n = 0` gives `[]`). -/
def decDigitsRev (n : Nat) : List Char :=
  if h : n = 0 then []
  else Nat.digitChar (n % 10) :: decDigitsRev (n / 10)
  termination_by n
  decreasing_by exact Nat.div_lt_self (Nat.pos_of_ne_zero h) (by decide)

/-- Decimal notation of a natural number (Python `str(n)`). -/
def natToDec (n : Nat) : String :=
  if n = 0 then "0" else ⟨(decDigitsRev n).reverse⟩

/-- One formatted search result (`_format_search_results` output element).
The constant `source` entry of the Python dict is omitted; `imageUrl` is the
optional `image_url` entry. -/
structure SearchResult where
  title : String
  link : String
  snippet : String
  imageUrl : Option String
deriving DecidableEq

/-- The per-result excerpt block of `get_search_context`
(`[Source {i+1}] {title}\nURL: {link}\nExcerpt: {snippet}\n\n` for each
result, `i` counting from `start`). -/
def blockStr (start : Nat) : List SearchResult → String
  | [] => ""
  | r :: rest =>
    "[Source " ++ natToDec (start + 1) ++ "] " ++ r.title ++
    "\nURL: " ++ r.link ++ "\nExcerpt: " ++ r.snippet ++ "\n\n" ++
    blockStr (start + 1) rest

/-- The source-reference list of `get_search_context`
(`[Source {i+1}: {title} ({link})]\n` for each result). -/
def refStr (start : Nat) : List SearchResult → String
  | [] => ""
  | r :: rest =>
    "[Source " ++ natToDec (start + 1) ++ ": " ++ r.title ++ " (" ++ r.link ++ ")]\n" ++
    refStr (start + 1) rest

/-- The fixed middle segment of `get_search_context` between the excerpt
blocks and the source-reference list. -/
def midSegment : String :=
  "\nWhen citing sources in your response, please include the full source information as follows:\nFor example, instead of just saying [Source 1], say [Source 1: Title of the Source (URL)].\n\nSources for reference:\n"

/-- `GoogleSearchClient.get_search_context`, applied to the outcome of the
inner `self.search(...)` call (`none` models the `None` the search client
returns on failure). -/
def getSearchContextFor (results : Option (List SearchResult)) : String :=
  match results with
  | none => "No relevant search results found."
  | some rs =>
    if rs = [] then "No relevant search results found."
    else
      "Here is information from recent web searches:\n\n" ++ blockStr 0 rs ++
      midSegment ++ refStr 0 rs

/-! #### Line-level view of `get_search_context`

`stringFromLines` joins a list of lines with newlines; the lemmas below show
that the context string is exactly the join of `contextLines`, which makes the
per-line claims precise. -/

/-- Join lines with newline separators. -/
def stringFromLines : List String → String
  | [] => ""
  | [l] => l
  | l :: l2 :: ls => l ++ "\n" ++ stringFromLines (l2 :: ls)

/-- The `[Source k: Title (URL)]` reference line for 1-based index `k`. -/
def refLine (k : Nat) (r : SearchResult) : String :=
  "[Source " ++ natToDec k ++ ": " ++ r.title ++ " (" ++ r.link ++ ")]"

/-- The lines of the excerpt blocks. -/
def blockLines (start : Nat) : List SearchResult → List String
  | [] => []
  | r :: rest =>
    ("[Source " ++ natToDec (start + 1) ++ "] " ++ r.title) ::
    ("URL: " ++ r.link) :: ("Excerpt: " ++ r.snippet) :: "" ::
    blockLines (start + 1) rest

/-- The lines of the source-reference list. -/
def refLines (start : Nat) : List SearchResult → List String
  | [] => []
  | r :: rest => refLine (start + 1) r :: refLines (start + 1) rest

/-- All lines of the non-empty-results context string, in order. -/
def contextLines (rs : List SearchResult) : List String :=
  ["Here is information from recent web searches:", ""] ++ blockLines 0 rs ++
  ["", "When citing sources in your response, please include the full source information as follows:",
   "For example, instead of just saying [Source 1], say [Source 1: Title of the Source (URL)].",
   "", "Sources for reference:"] ++ refLines 0 rs ++ [""]

/-- Append a newline to every line and concatenate. -/
def joinLines : List String → String
  | [] => ""
  | l :: ls => l ++ "\n" ++ joinLines ls

/-- Split a character list at newlines (a string with `n` newlines yields
`n + 1` chunks). -/
def splitNl : List Char → List (List Char)
  | [] => [[]]
  | c :: rest =>
    if c = '\n' then [] :: splitNl rest
    else
      match splitNl rest with
      | l :: ls => (c :: l) :: ls
      | [] => [[c]]

/-- The lines of a string (split at newline characters). -/
def strLines (s : String) : List String := (splitNl s.data).map String.mk

/-- The per-result fields of a search result contain no newline character (the
precondition under which the line-level view of `get_search_context` is the
genuine line decomposition of its output). -/
def noNewlines (r : SearchResult) : Prop :=
  ('\n' ∈ r.title.data → False) ∧ ('\n' ∈ r.link.data → False) ∧
  ('\n' ∈ r.snippet.data → False)

instance (r : SearchResult) : Decidable (noNewlines r) := by
  unfold noNewlines
  infer_instance

/-! ### Concrete fixtures used to instantiate the properties -/

/-- A plain query with no data or search keywords. -/
def baseArgs : Args :=
  { prompt := "hello", context := none, history := [], useCache := true,
    sheetName := none, preferredModel := "gemini" }

/-- A service environment with a healthy data fetch, SQL mode off, no search
context, and the given provider outcomes. -/
def envWith (p : Except String String) (f : Nat → Except String String) :
    ServiceEnv :=
  { dbFetch := .ok none, useSqlDatabase := false, sqlBranch := none,
    searchContext := "", primaryOutcome := p, fallbackOutcomes := f }

/-- The keyword set `get_response` uses (via `_is_sql_query`) to classify a
query as data-related. -/
def dataKeywords : List String := sqlIndicators ++ sqlQuestionPatterns

/-- The texts returned by the external clients during one `get_response`
call: the direct-SQL branch text, the primary text, and the fallback texts of
the at most three fallback attempts. -/
def clientOkTexts (env : ServiceEnv) : List String :=
  (match env.sqlBranch with | some t => [t] | none => []) ++
  (match env.primaryOutcome with | .ok t => [t] | .error _ => []) ++
  ((List.range 3).filterMap (fun i => (env.fallbackOutcomes i).toOption))

end Nexus360

namespace Nexus360

/-! ## Properties of the fallback orchestrator (`get_response`) -/

/-- Every result of the `_try_fallback_model` loop either has no error and the
fallback model as its source, or an error and source `error`. -/
theorem tryFallbackGo_error_source (o : Nat → Except String String) (name : String) :
    ∀ rem attempt calls sleeps,
      ((tryFallbackGo o name rem attempt calls sleeps).1.error = none ∧
        (tryFallbackGo o name rem attempt calls sleeps).1.source = name) ∨
      ((tryFallbackGo o name rem attempt calls sleeps).1.error ≠ none ∧
        (tryFallbackGo o name rem attempt calls sleeps).1.source = "error") := by
  intro rem
  induction rem with
  | zero => intro attempt calls sleeps; right; simp [tryFallbackGo]
  | succ n ih =>
    intro attempt calls sleeps
    unfold tryFallbackGo
    cases o attempt with
    | ok t => left; simp
    | error fe =>
      by_cases hrl : isRateLimitText fe = true
      · by_cases hn : n = 0
        · right; simp [hrl, hn]
        · simpa [hrl, hn] using ih (attempt + 1) (calls + 1) (sleeps + 1)
      · right; simp [hrl]

/-- C1: for every dictionary returned by `ChatbotService.get_response`
(including those produced via `_try_fallback_model`), the `error` field is
non-`None` if and only if the `source` field equals `"error"`. -/
theorem getResponse_error_iff_source_error (args : Args) (env : ServiceEnv) :
    (getResponse args env).1.error ≠ none ↔ (getResponse args env).1.source = "error" := by
  unfold getResponse
  cases hdb : env.dbFetch with
  | error e => simp
  | ok d =>
    dsimp only
    cases hsql : (if isSqlQuery args.prompt && env.useSqlDatabase then env.sqlBranch else none) with
    | some sqlText => simp
    | none =>
      dsimp only
      cases hp : env.primaryOutcome with
      | ok t =>
        dsimp only
        constructor
        · intro h; simp at h
        · intro h
          exfalso
          unfold primaryName at h
          by_cases hm : args.preferredModel = "openai" <;>
            by_cases hs :
              (if isSearchQuery args.prompt then env.searchContext else "") ≠ "" <;>
            simp [hm, hs] at h
      | error e =>
        dsimp only
        by_cases ha : isAuthText e = true
        · simp [ha]
        · simp only [Bool.not_eq_true] at ha
          simp only [ha, Bool.false_eq_true, if_false]
          rcases tryFallbackGo_error_source env.fallbackOutcomes (fallbackName args) 3 0 0 0 with
            ⟨h1, h2⟩ | ⟨h1, h2⟩
          · simp only [tryFallbackModel, h1, h2]
            unfold fallbackName
            by_cases hm : args.preferredModel = "openai" <;> simp [hm]
          · simp [tryFallbackModel, h1, h2]

/-- When the `_try_fallback_model` loop ends without an error, its response
text is the text returned verbatim by one of the fallback invocations. -/
theorem tryFallbackGo_ok_text (o : Nat → Except String String) (name : String) :
    ∀ rem attempt calls sleeps,
      (tryFallbackGo o name rem attempt calls sleeps).1.error = none →
      ∃ i, attempt ≤ i ∧ i < attempt + rem ∧
        o i = .ok ((tryFallbackGo o name rem attempt calls sleeps).1.response) := by
  intro rem
  induction rem with
  | zero => intro attempt calls sleeps h; simp [tryFallbackGo] at h
  | succ n ih =>
    intro attempt calls sleeps h
    unfold tryFallbackGo at h ⊢
    cases ho : o attempt with
    | ok t =>
      refine ⟨attempt, le_refl _, by omega, ?_⟩
      simp [ho]
    | error fe =>
      simp only [ho] at h ⊢
      by_cases hrl : isRateLimitText fe = true
      · by_cases hn : n = 0
        · simp [hrl, hn] at h
        · simp only [hrl, if_true, hn, if_false] at h ⊢
          obtain ⟨i, h1, h2, h3⟩ := ih (attempt + 1) (calls + 1) (sleeps + 1) h
          exact ⟨i, by omega, by omega, h3⟩
      · simp [hrl] at h

/-- C2 counterexample: with Gemini as primary, an API exception `boom` inside
the Gemini client is converted by the client into ordinary response text, so
`get_response` returns a dictionary whose `error` field is `None` while the
raw exception string `boom` occurs in the response text. -/
theorem errorFreeResponse_contains_raw_exception :
    (getResponse baseArgs
        (envWith (.ok (geminiGetChatbotResponse (.error "boom")))
          (fun _ => .error ""))).1.error = none ∧
    pyIn "boom"
      (getResponse baseArgs
        (envWith (.ok (geminiGetChatbotResponse (.error "boom")))
          (fun _ => .error ""))).1.response = true := by
  constructor <;> decide

/-- C2 amended: whenever `get_response` returns with `error = None`, the
response text is exactly one of the texts returned by the external clients —
the orchestrator itself concatenates no exception text into it.  (The claim as
stated fails because the Gemini client may embed a raw exception string in the
text it returns, see the counterexample.) -/
theorem getResponse_none_error_text_from_client (args : Args) (env : ServiceEnv)
    (h : (getResponse args env).1.error = none) :
    (getResponse args env).1.response ∈ clientOkTexts env := by
  unfold getResponse at h ⊢
  cases hdb : env.dbFetch with
  | error e => simp [hdb] at h
  | ok d =>
    simp only [hdb] at h ⊢
    cases hsql : (if isSqlQuery args.prompt && env.useSqlDatabase then env.sqlBranch else none) with
    | some sqlText =>
      simp only [hsql] at h ⊢
      have hbr : env.sqlBranch = some sqlText := by
        by_cases hc : (isSqlQuery args.prompt && env.useSqlDatabase) = true
        · rw [hc] at hsql; simpa using hsql
        · rw [eq_false_of_ne_true hc] at hsql; simp at hsql
      simp [clientOkTexts, hbr]
    | none =>
      simp only [hsql] at h ⊢
      cases hp : env.primaryOutcome with
      | ok t =>
        simp only [hp] at h ⊢
        simp [clientOkTexts, hp]
      | error e =>
        simp only [hp] at h ⊢
        by_cases ha : isAuthText e = true
        · simp [ha] at h
        · simp only [Bool.not_eq_true] at ha
          simp only [ha, Bool.false_eq_true, if_false] at h ⊢
          obtain ⟨i, h1, h2, h3⟩ :=
            tryFallbackGo_ok_text env.fallbackOutcomes (fallbackName args) 3 0 0 0 h
          simp only [clientOkTexts, hp]
          refine List.mem_append.2 (Or.inr ?_)
          refine List.mem_filterMap.2 ⟨i, List.mem_range.2 (by omega), ?_⟩
          simp [tryFallbackModel, h3, Except.toOption]

/-- Witness for the C2 amended theorem at a concrete input. -/
theorem getResponse_none_error_text_from_client_witness :
    (getResponse baseArgs (envWith (.ok "fine") (fun _ => .error ""))).1.response ∈
      clientOkTexts (envWith (.ok "fine") (fun _ => .error "")) :=
  getResponse_none_error_text_from_client baseArgs
    (envWith (.ok "fine") (fun _ => .error "")) (by decide)

/-- A run of the `_try_fallback_model` loop in which the first `k` attempts
fail with rate-limit errors and attempt `k` succeeds: exactly `k` backoff
sleeps and `k + 1` fallback invocations happen, and the loop returns the
successful text under the fallback model name. -/
theorem tryFallbackGo_rate_limit_run (o : Nat → Except String String) (name : String) :
    ∀ k rem attempt calls sleeps t, k < rem →
      (∀ i, i < k → ∃ ei, o (attempt + i) = .error ei ∧ isRateLimitText ei = true) →
      o (attempt + k) = .ok t →
      tryFallbackGo o name rem attempt calls sleeps =
        ({ response := t, source := name, sheetName := none, error := none },
         calls + k + 1, sleeps + k) := by
  intro k
  induction k with
  | zero =>
    intro rem attempt calls sleeps t hrem _ hok
    obtain ⟨n, rfl⟩ : ∃ n, rem = n + 1 := ⟨rem - 1, by omega⟩
    unfold tryFallbackGo
    simp only [Nat.add_zero] at hok
    simp [hok]
  | succ k ih =>
    intro rem attempt calls sleeps t hrem hfail hok
    obtain ⟨n, rfl⟩ : ∃ n, rem = n + 1 := ⟨rem - 1, by omega⟩
    obtain ⟨e0, he0, hrl0⟩ := hfail 0 (Nat.succ_pos k)
    simp only [Nat.add_zero] at he0
    unfold tryFallbackGo
    have hn : n ≠ 0 := by omega
    simp only [he0, hrl0, if_true, hn, if_false]
    have := ih n (attempt + 1) (calls + 1) (sleeps + 1) t (by omega)
      (fun i hi => by
        obtain ⟨ei, hei, hrli⟩ := hfail (i + 1) (by omega)
        exact ⟨ei, by rw [← hei]; ring_nf, hrli⟩)
      (by rw [← hok]; ring_nf)
    rw [this]
    refine congrArg _ ?_
    refine Prod.ext ?_ ?_ <;> simp <;> omega

/-- C3 counterexample: with one rate-limit failure from the primary provider
followed by an immediate success of the secondary provider, `get_response`
performs zero backoff sleeps (the claim demands exactly one), while the
source is indeed the secondary provider identity. -/
theorem rate_limit_fallback_sleeps_zero :
    isRateLimitText "Rate limit exceeded" = true ∧
    (getResponse baseArgs
        (envWith (.error "Rate limit exceeded") (fun _ => .ok "answer"))).1.source = "openai" ∧
    (getResponse baseArgs
        (envWith (.error "Rate limit exceeded") (fun _ => .ok "answer"))).2.fallbackCalls = 1 ∧
    (getResponse baseArgs
        (envWith (.error "Rate limit exceeded") (fun _ => .ok "answer"))).2.sleeps = 0 ∧
    (getResponse baseArgs
        (envWith (.error "Rate limit exceeded") (fun _ => .ok "answer"))).2.sleeps ≠ 1 := by
  refine ⟨by decide, by decide, by decide, by decide, by decide⟩

/-- C3 amended: after a single (rate-limit or other non-authentication)
primary failure, backoff sleeps are governed by the secondary retry loop: if
the secondary fails with `k` consecutive rate-limit errors (`k < 3`) and then
succeeds, `get_response` performs exactly `k` backoff sleeps, invokes the
secondary `k + 1` times, and returns its text under the secondary provider
identity.  In particular, one primary rate-limit failure followed by an
immediate secondary success yields zero sleeps, not one. -/
theorem getResponse_secondary_rate_limit_run (args : Args) (env : ServiceEnv)
    (d : Option String) (e t : String) (k : Nat)
    (hdb : env.dbFetch = .ok d) (hsql : env.sqlBranch = none)
    (hp : env.primaryOutcome = .error e) (ha : isAuthText e = false)
    (hk : k < 3)
    (hfail : ∀ i, i < k → ∃ ei, env.fallbackOutcomes i = .error ei ∧
      isRateLimitText ei = true)
    (hok : env.fallbackOutcomes k = .ok t) :
    (getResponse args env).1.source = fallbackName args ∧
    (getResponse args env).1.response = t ∧
    (getResponse args env).1.error = none ∧
    (getResponse args env).2.sleeps = k ∧
    (getResponse args env).2.fallbackCalls = k + 1 := by
  have hrun := tryFallbackGo_rate_limit_run env.fallbackOutcomes (fallbackName args)
    k 3 0 0 0 t hk (by simpa using hfail) (by simpa using hok)
  unfold getResponse
  simp only [hdb, hsql, hp, ha, ite_self, Bool.false_eq_true, if_false]
  simp [tryFallbackModel, hrun]

/-- Witness for the C3 amended theorem: one secondary rate-limit failure, then
success, gives exactly one sleep and two fallback invocations. -/
theorem getResponse_secondary_rate_limit_run_witness :
    (getResponse baseArgs
        (envWith (.error "boom")
          (fun i => if i = 0 then .error "HTTP 429" else .ok "answer"))).1.source =
      fallbackName baseArgs ∧
    (getResponse baseArgs
        (envWith (.error "boom")
          (fun i => if i = 0 then .error "HTTP 429" else .ok "answer"))).1.response = "answer" ∧
    (getResponse baseArgs
        (envWith (.error "boom")
          (fun i => if i = 0 then .error "HTTP 429" else .ok "answer"))).1.error = none ∧
    (getResponse baseArgs
        (envWith (.error "boom")
          (fun i => if i = 0 then .error "HTTP 429" else .ok "answer"))).2.sleeps = 1 ∧
    (getResponse baseArgs
        (envWith (.error "boom")
          (fun i => if i = 0 then .error "HTTP 429" else .ok "answer"))).2.fallbackCalls = 2 :=
  getResponse_secondary_rate_limit_run baseArgs
    (envWith (.error "boom") (fun i => if i = 0 then .error "HTTP 429" else .ok "answer"))
    none "boom" "answer" 1 rfl rfl rfl (by decide) (by decide)
    (fun i hi => by
      interval_cases i
      exact ⟨"HTTP 429", rfl, by decide⟩)
    rfl

/-- C4: when the primary invocation fails with an authentication or
configuration error (the message mentions the API key or authentication, as
the missing-key `ValueError` of the OpenAI client does), `get_response`
returns the fixed user-facing configuration-error dictionary with source
`error` immediately: the primary is invoked exactly once, no backoff sleep
happens and the fallback provider is never invoked. -/
theorem getResponse_auth_error_terminal (args : Args) (env : ServiceEnv)
    (d : Option String) (e : String)
    (hdb : env.dbFetch = .ok d) (hsql : env.sqlBranch = none)
    (hp : env.primaryOutcome = .error e) (ha : isAuthText e = true) :
    (getResponse args env).1 =
      { response := "There\x27s an issue with the " ++ upperStr (primaryName args) ++
          " API configuration. Please check your API key settings.",
        source := "error", sheetName := none, error := some e } ∧
    (getResponse args env).2.primaryCalls = [args.history] ∧
    (getResponse args env).2.fallbackCalls = 0 ∧
    (getResponse args env).2.sleeps = 0 := by
  unfold getResponse
  simp [hdb, hsql, hp, ha]

/-- Witness for C4 with the exact `ValueError` message the OpenAI client
raises when its API key is missing. -/
theorem getResponse_auth_error_terminal_witness :
    (getResponse baseArgs
        (envWith (.error "OpenAI API key is not configured. Please check your .env file.")
          (fun _ => .ok "never reached"))).1 =
      { response := "There\x27s an issue with the " ++ upperStr (primaryName baseArgs) ++
          " API configuration. Please check your API key settings.",
        source := "error", sheetName := none,
        error := some "OpenAI API key is not configured. Please check your .env file." } ∧
    (getResponse baseArgs
        (envWith (.error "OpenAI API key is not configured. Please check your .env file.")
          (fun _ => .ok "never reached"))).2.primaryCalls = [baseArgs.history] ∧
    (getResponse baseArgs
        (envWith (.error "OpenAI API key is not configured. Please check your .env file.")
          (fun _ => .ok "never reached"))).2.fallbackCalls = 0 ∧
    (getResponse baseArgs
        (envWith (.error "OpenAI API key is not configured. Please check your .env file.")
          (fun _ => .ok "never reached"))).2.sleeps = 0 :=
  getResponse_auth_error_terminal baseArgs
    (envWith (.error "OpenAI API key is not configured. Please check your .env file.")
      (fun _ => .ok "never reached"))
    none "OpenAI API key is not configured. Please check your .env file."
    rfl rfl rfl (by decide)

/-- The `_try_fallback_model` loop invokes the fallback provider at least once
whenever it may run at all. -/
theorem tryFallbackGo_calls_ge_one (o : Nat → Except String String) (name : String) :
    ∀ rem attempt calls sleeps, 0 < rem →
      calls + 1 ≤ (tryFallbackGo o name rem attempt calls sleeps).2.1 := by
  intro rem
  induction rem with
  | zero => intro _ _ _ h; omega
  | succ n ih =>
    intro attempt calls sleeps _
    unfold tryFallbackGo
    cases o attempt with
    | ok t => simp
    | error fe =>
      by_cases hrl : isRateLimitText fe = true
      · by_cases hn : n = 0
        · simp [hrl, hn]
        · have := ih (attempt + 1) (calls + 1) (sleeps + 1) (by omega)
          simp only [hrl, if_true, hn, if_false]
          omega
      · simp [hrl]

/-- C5 counterexample: when the primary provider fails with a context-length
error, `get_response` moves straight to the fallback provider — the failing
provider is invoked exactly once, with the original (untruncated) history, and
is never retried, contradicting the claimed truncate-and-retry step. -/
theorem context_length_no_truncated_retry :
    pyIn "context_length_exceeded" "Error code 400: context_length_exceeded" = true ∧
    (getResponse
        { prompt := "hello", context := none,
          history := [{ role := "user", content := "m1" }], useCache := true,
          sheetName := none, preferredModel := "gemini" }
        (envWith (.error "Error code 400: context_length_exceeded")
          (fun _ => .ok "fallback answer"))).2.primaryCalls =
      [[{ role := "user", content := "m1" }]] ∧
    (getResponse
        { prompt := "hello", context := none,
          history := [{ role := "user", content := "m1" }], useCache := true,
          sheetName := none, preferredModel := "gemini" }
        (envWith (.error "Error code 400: context_length_exceeded")
          (fun _ => .ok "fallback answer"))).2.primaryCalls.length ≠ 2 ∧
    (getResponse
        { prompt := "hello", context := none,
          history := [{ role := "user", content := "m1" }], useCache := true,
          sheetName := none, preferredModel := "gemini" }
        (envWith (.error "Error code 400: context_length_exceeded")
          (fun _ => .ok "fallback answer"))).2.fallbackCalls = 1 := by
  refine ⟨by decide, by decide, by decide, by decide⟩

/-- C5 amended: on a context-length error from the primary provider the
orchestrator performs no truncate-and-retry: the primary is invoked exactly
once, with the unmodified history, and control passes to the fallback
provider (invoked at least once).  Inside the OpenAI client a
`context_length_exceeded` API error is likewise not retried: the client
immediately returns the fixed too-long message with zero backoff sleeps. -/
theorem getResponse_context_length_no_retry (args : Args) (env : ServiceEnv)
    (d : Option String) (e : String) (oc : Nat → OpenAIApiOutcome) (ga : Bool)
    (go : Except String String) (m : String)
    (hdb : env.dbFetch = .ok d) (hsql : env.sqlBranch = none)
    (hp : env.primaryOutcome = .error e)
    (_hcl : pyIn "context_length_exceeded" e = true)
    (ha : isAuthText e = false)
    (hoc : oc 0 = .apiError m)
    (hmn : pyIn "model_not_found" m = false)
    (hm : pyIn "context_length_exceeded" m = true) :
    (getResponse args env).2.primaryCalls = [args.history] ∧
    1 ≤ (getResponse args env).2.fallbackCalls ∧
    openaiGetChatbotResponse true oc ga go = .ok (openaiTooLongMsg, 0) := by
  refine ⟨?_, ?_, ?_⟩
  · unfold getResponse
    simp [hdb, hsql, hp, ha]
  · have hcge := tryFallbackGo_calls_ge_one env.fallbackOutcomes (fallbackName args)
      3 0 0 0 (by omega)
    unfold getResponse
    simp only [hdb, hsql, hp, ha, ite_self, Bool.false_eq_true, if_false]
    rcases htf : tryFallbackGo env.fallbackOutcomes (fallbackName args) 3 0 0 0 with ⟨r, c, s⟩
    rw [htf] at hcge
    simp only [tryFallbackModel, htf]
    simp at hcge ⊢
    omega
  · unfold openaiGetChatbotResponse openaiLoop
    simp [hoc, hmn, hm]

/-- Witness for the C5 amended theorem at concrete inputs. -/
theorem getResponse_context_length_no_retry_witness :
    (getResponse baseArgs
        (envWith (.error "Error code 400: context_length_exceeded")
          (fun _ => .ok "fallback answer"))).2.primaryCalls = [baseArgs.history] ∧
    1 ≤ (getResponse baseArgs
        (envWith (.error "Error code 400: context_length_exceeded")
          (fun _ => .ok "fallback answer"))).2.fallbackCalls ∧
    openaiGetChatbotResponse true (fun _ => .apiError "context_length_exceeded") true
      (.ok "gem") = .ok (openaiTooLongMsg, 0) :=
  getResponse_context_length_no_retry baseArgs
    (envWith (.error "Error code 400: context_length_exceeded")
      (fun _ => .ok "fallback answer"))
    none "Error code 400: context_length_exceeded"
    (fun _ => .apiError "context_length_exceeded") true (.ok "gem")
    "context_length_exceeded"
    rfl rfl rfl (by decide) (by decide) rfl (by decide) (by decide)

/-- C6 counterexample: the query `hello` contains none of the data keywords,
yet `get_response` still performs its data fetch (`get_database_data` runs
once, not zero times): the fetch is unconditional. -/
theorem no_keyword_query_still_fetches :
    dataKeywords.all (fun kw => !(pyIn kw (lowerStr "hello"))) = true ∧
    (getResponse baseArgs (envWith (.ok "resp") (fun _ => .error ""))).2.dbFetchCalls = 1 ∧
    (getResponse baseArgs (envWith (.ok "resp") (fun _ => .error ""))).2.dbFetchCalls ≠ 0 := by
  refine ⟨by decide, by decide, by decide⟩

/-- C6 amended: `get_response` invokes `get_database_data` exactly once on
every request, regardless of the query keywords — the keyword classifiers
only gate the direct-SQL and web-search enrichment paths, not the data
fetch. -/
theorem getResponse_always_fetches (args : Args) (env : ServiceEnv) :
    (getResponse args env).2.dbFetchCalls = 1 := by
  unfold getResponse
  cases hdb : env.dbFetch with
  | error e => simp
  | ok d =>
    dsimp only
    cases hsql : (if isSqlQuery args.prompt && env.useSqlDatabase then env.sqlBranch else none) with
    | some sqlText => simp
    | none =>
      dsimp only
      cases hp : env.primaryOutcome with
      | ok t => simp
      | error e =>
        dsimp only
        by_cases ha : isAuthText e = true
        · simp [ha]
        · simp only [Bool.not_eq_true] at ha
          simp only [ha, Bool.false_eq_true, if_false]

/-! ## Properties of the context aggregator (`get_all_projects`) -/

/-- Reading back the key just written returns the written value. -/
theorem cacheGet_cacheSet (cache : List (String × List Project)) (key : String)
    (value : List Project) : cacheGet (cacheSet cache key value) key = some value := by
  simp [cacheGet, cacheSet, List.find?]

/-- C7 counterexample: when the store holds an empty project list, the empty
list is cached but Python truthiness makes the cached empty list look like a
miss, so two consecutive cached fetches invoke the underlying adapter twice —
not at most once as claimed (the returned blobs are still identical). -/
theorem empty_fetch_breaks_cache_idempotence :
    (getAllProjects none true { cache := [], clientConnected := false }
        { connectOk := true, fetchRecords := .ok [] }).1 = [] ∧
    (getAllProjects none true
        (getAllProjects none true { cache := [], clientConnected := false }
          { connectOk := true, fetchRecords := .ok [] }).2.1
        { connectOk := true, fetchRecords := .ok [] }).1 = [] ∧
    (getAllProjects none true { cache := [], clientConnected := false }
        { connectOk := true, fetchRecords := .ok [] }).2.2 +
      (getAllProjects none true
        (getAllProjects none true { cache := [], clientConnected := false }
          { connectOk := true, fetchRecords := .ok [] }).2.1
        { connectOk := true, fetchRecords := .ok [] }).2.2 = 2 := by
  refine ⟨by decide, by decide, by decide⟩

/-- C7 amended: two consecutive cached fetches with no intervening
`clear_cache` return identical project blobs and invoke the underlying store
adapter at most once, provided the first fetch produced a non-empty blob
(a cached empty list is falsy in the Python cache-hit test and is therefore
refetched). -/
theorem getAllProjects_cache_idempotent (name : Option String)
    (st : SheetsState) (env : SheetsEnv)
    (h : (getAllProjects name true st env).1 ≠ []) :
    (getAllProjects name true (getAllProjects name true st env).2.1 env).1 =
      (getAllProjects name true st env).1 ∧
    (getAllProjects name true st env).2.2 +
      (getAllProjects name true (getAllProjects name true st env).2.1 env).2.2 ≤ 1 := by
  by_cases hc : (cacheGet st.cache ("projects_" ++ name.getD "default")).getD [] ≠ []
  · constructor <;> simp [getAllProjects, hc]
  · simp only [ne_eq, Classical.not_not] at hc
    by_cases hcon : (!st.clientConnected && !env.connectOk) = true
    · exfalso
      apply h
      simp [getAllProjects, hc, hcon]
    · cases hf : env.fetchRecords with
      | error e =>
        exfalso
        apply h
        simp [getAllProjects, hc, hcon, hf]
      | ok records =>
        have hfirst : getAllProjects name true st env =
            (records.map (fun p => { p with sourceSheet := some (name.getD "default") }),
             { cache := cacheSet st.cache ("projects_" ++ name.getD "default")
                 (records.map (fun p => { p with sourceSheet := some (name.getD "default") })),
               clientConnected := true }, 1) := by
          simp [getAllProjects, hc, hcon, hf]
        rw [hfirst] at h ⊢
        simp only at h ⊢
        constructor
        · simp [getAllProjects, cacheGet_cacheSet, h]
        · simp [getAllProjects, cacheGet_cacheSet, h]

/-- Witness for the C7 amended theorem: a one-project store, fetched twice
from a cold cache, hits the adapter once and returns the same blob twice. -/
theorem getAllProjects_cache_idempotent_witness :
    (getAllProjects none true
        (getAllProjects none true { cache := [], clientConnected := false }
          { connectOk := true,
            fetchRecords := .ok [{ fields := [("name", "x")], sourceSheet := none }] }).2.1
        { connectOk := true,
          fetchRecords := .ok [{ fields := [("name", "x")], sourceSheet := none }] }).1 =
      (getAllProjects none true { cache := [], clientConnected := false }
        { connectOk := true,
          fetchRecords := .ok [{ fields := [("name", "x")], sourceSheet := none }] }).1 ∧
    (getAllProjects none true { cache := [], clientConnected := false }
        { connectOk := true,
          fetchRecords := .ok [{ fields := [("name", "x")], sourceSheet := none }] }).2.2 +
      (getAllProjects none true
        (getAllProjects none true { cache := [], clientConnected := false }
          { connectOk := true,
            fetchRecords := .ok [{ fields := [("name", "x")], sourceSheet := none }] }).2.1
        { connectOk := true,
          fetchRecords := .ok [{ fields := [("name", "x")], sourceSheet := none }] }).2.2 ≤ 1 :=
  getAllProjects_cache_idempotent none { cache := [], clientConnected := false }
    { connectOk := true,
      fetchRecords := .ok [{ fields := [("name", "x")], sourceSheet := none }] }
    (by decide)

/-! ## Properties of the relational-store adapter (`execute_query`) -/

/-- C8 counterexample: the safe-mode filter checks whole whitespace-separated
words, not substrings, so the statement `delete/**/from users` — which
contains the data-mutating keyword `delete` and is an executable DELETE for
SQL dialects that allow comment separators — is not rejected: it is passed to
the engine instead of being blocked. -/
theorem mutating_substring_not_blocked :
    pyIn "delete" (lowerStr "delete/**/from users") = true ∧
    isSafeQuery "delete/**/from users" = true ∧
    executeQuery "delete/**/from users" true (.ok [[("rows", "1")]]) =
      .data [[("rows", "1")]] := by
  refine ⟨by decide, by decide, by decide⟩

/-- C8 amended: with safe mode enabled, `execute_query` rejects (returns the
blocked-for-security error frame instead of executing) every statement in
which one of the data-mutating keywords occurs as a whitespace-separated word
of the stripped, lowercased statement. -/
theorem executeQuery_blocks_mutating_word (q : String)
    (dbRun : Except String (List (List (String × String)))) (kw : String)
    (hkw : kw ∈ unsafeKeywords)
    (hm : (pySplit (lowerStr (pyStrip q))).contains kw = true) :
    executeQuery q true dbRun = .errorFrame blockedMsg := by
  have hany : unsafeKeywords.any
      (fun kw => (pySplit (lowerStr (pyStrip q))).contains kw) = true :=
    List.any_eq_true.2 ⟨kw, hkw, hm⟩
  have hnotSafe : isSafeQuery q = false := by
    have hdef : isSafeQuery q =
        !(unsafeKeywords.any (fun kw => (pySplit (lowerStr (pyStrip q))).contains kw)) := rfl
    rw [hdef, hany]
    rfl
  unfold executeQuery
  simp [hnotSafe]

/-- Witness for the C8 amended theorem: `DROP TABLE users` is blocked. -/
theorem executeQuery_blocks_mutating_word_witness :
    executeQuery "DROP TABLE users" true (.ok [[("rows", "1")]]) =
      .errorFrame blockedMsg :=
  executeQuery_blocks_mutating_word "DROP TABLE users" (.ok [[("rows", "1")]])
    "drop" (by decide) (by decide)

/-! ## Properties of the search metrics (`_log_search_metrics`) -/

/-- One `_log_search_metrics` update preserves the metrics invariants. -/
theorem applyLogEvent_invariant (m : SearchMetrics) (e : LogEvent)
    (h1 : m.totalSearches = m.successfulSearches + m.failedSearches)
    (h2 : m.cachedSearches ≤ m.successfulSearches) :
    (applyLogEvent m e).totalSearches =
      (applyLogEvent m e).successfulSearches + (applyLogEvent m e).failedSearches ∧
    (applyLogEvent m e).cachedSearches ≤ (applyLogEvent m e).successfulSearches := by
  unfold applyLogEvent
  by_cases hs : e.success = true <;> by_cases hcch : e.cached = true <;>
    cases e.responseTime <;> cases e.errorMsg <;>
    simp [hs, hcch] <;> omega

/-- C10: every daily search-metrics record reachable from the zero record by
`_log_search_metrics` updates satisfies `total_searches = successful_searches
+ failed_searches` and `cached_searches ≤ successful_searches`. -/
theorem metricsAfter_invariant (events : List LogEvent) :
    (metricsAfter events).totalSearches =
      (metricsAfter events).successfulSearches + (metricsAfter events).failedSearches ∧
    (metricsAfter events).cachedSearches ≤ (metricsAfter events).successfulSearches := by
  suffices haux : ∀ (m : SearchMetrics),
      (m.totalSearches = m.successfulSearches + m.failedSearches ∧
        m.cachedSearches ≤ m.successfulSearches) →
      ((events.foldl applyLogEvent m).totalSearches =
        (events.foldl applyLogEvent m).successfulSearches +
          (events.foldl applyLogEvent m).failedSearches ∧
       (events.foldl applyLogEvent m).cachedSearches ≤
        (events.foldl applyLogEvent m).successfulSearches) by
    exact haux zeroMetrics (by simp [zeroMetrics])
  induction events with
  | nil => intro m hm; simpa using hm
  | cons e es ih =>
    intro m hm
    simp only [List.foldl_cons]
    exact ih (applyLogEvent m e) (applyLogEvent_invariant m e hm.1 hm.2)

/-! ## Properties of the search augmenter (`get_search_context`)

Decimal-notation lemmas for `natToDec`, then the line-level decomposition of
the context string, then the uniqueness of each source-reference line. -/

/-- A digit character rendered by `Nat.digitChar` from a value below ten is a
decimal digit. -/
theorem digitChar_isDigit {m : Nat} (h : m < 10) : (Nat.digitChar m).isDigit = true := by
  interval_cases m <;> decide

/-- `Nat.digitChar` is injective below ten. -/
theorem digitChar_inj {a b : Nat} (ha : a < 10) (hb : b < 10)
    (h : Nat.digitChar a = Nat.digitChar b) : a = b := by
  interval_cases a <;> interval_cases b <;> simp_all <;> revert h <;> decide

/-- Every character of `decDigitsRev n` is a decimal digit. -/
theorem decDigitsRev_digits (n : Nat) : ∀ c ∈ decDigitsRev n, c.isDigit = true := by
  induction n using Nat.strong_induction_on with
  | _ n ih =>
    rw [decDigitsRev]
    by_cases h : n = 0
    · simp [h]
    · simp only [h, dif_neg, not_false_iff]
      intro c hc
      rcases List.mem_cons.1 hc with rfl | hc
      · exact digitChar_isDigit (Nat.mod_lt _ (by omega))
      · exact ih (n / 10) (Nat.div_lt_self (by omega) (by omega)) c hc

/-- `decDigitsRev n` is empty exactly for `n = 0`. -/
theorem decDigitsRev_eq_nil_iff (n : Nat) : decDigitsRev n = [] ↔ n = 0 := by
  constructor
  · intro h
    by_contra hn
    rw [decDigitsRev] at h
    simp [hn] at h
  · intro h; rw [h, decDigitsRev]; simp

/-- `decDigitsRev 0` is the empty digit list. -/
theorem decDigitsRev_zero : decDigitsRev 0 = [] := by
  rw [decDigitsRev]
  simp

/-- Unfolding `decDigitsRev` at a positive argument. -/
theorem decDigitsRev_pos {n : Nat} (h : n ≠ 0) :
    decDigitsRev n = Nat.digitChar (n % 10) :: decDigitsRev (n / 10) := by
  conv_lhs => rw [decDigitsRev]
  simp [h]

/-- `decDigitsRev` is injective. -/
theorem decDigitsRev_inj : ∀ m n : Nat, decDigitsRev m = decDigitsRev n → m = n := by
  intro m
  induction m using Nat.strong_induction_on with
  | _ m ih =>
    intro n h
    by_cases hm : m = 0
    · subst hm
      by_contra hn
      rw [decDigitsRev_zero, decDigitsRev_pos (Ne.symm hn)] at h
      exact List.noConfusion h
    · by_cases hn : n = 0
      · subst hn
        rw [decDigitsRev_zero, decDigitsRev_pos hm] at h
        exact List.noConfusion h
      · rw [decDigitsRev_pos hm, decDigitsRev_pos hn] at h
        rcases List.cons.inj h with ⟨h1, h2⟩
        have hmod : m % 10 = n % 10 :=
          digitChar_inj (Nat.mod_lt _ (by omega)) (Nat.mod_lt _ (by omega)) h1
        have hdiv : m / 10 = n / 10 :=
          ih (m / 10) (Nat.div_lt_self (by omega) (by omega)) (n / 10) h2
        omega

/-- Every character of the decimal notation is a decimal digit. -/
theorem natToDec_digits (n : Nat) : ∀ c ∈ (natToDec n).data, c.isDigit = true := by
  unfold natToDec
  by_cases h : n = 0
  · simp [h]
  · simp only [h, if_neg, not_false_iff]
    intro c hc
    exact decDigitsRev_digits n c (List.mem_reverse.1 hc)

/-- Decimal notation is injective. -/
theorem natToDec_inj {m n : Nat} (h : natToDec m = natToDec n) : m = n := by
  have hd : (natToDec m).data = (natToDec n).data := congrArg String.data h
  unfold natToDec at hd
  by_cases hm : m = 0 <;> by_cases hn : n = 0
  · omega
  · exfalso
    simp only [hm, if_pos, hn, if_neg, not_false_iff] at hd
    have : decDigitsRev n = ['0'] := by
      have := congrArg List.reverse hd
      simpa using this.symm
    have h0 : Nat.digitChar (n % 10) = '0' ∧ decDigitsRev (n / 10) = [] := by
      rw [decDigitsRev_pos hn] at this
      simpa using this
    have hdiv : n / 10 = 0 := (decDigitsRev_eq_nil_iff _).1 h0.2
    have hmod : n % 10 = 0 :=
      digitChar_inj (Nat.mod_lt _ (by omega)) (by omega) (h0.1.trans rfl)
    omega
  · exfalso
    simp only [hm, if_neg, not_false_iff, hn, if_pos] at hd
    have : decDigitsRev m = ['0'] := by
      have := congrArg List.reverse hd
      simpa using this
    have h0 : Nat.digitChar (m % 10) = '0' ∧ decDigitsRev (m / 10) = [] := by
      rw [decDigitsRev_pos hm] at this
      simpa using this
    have hdiv : m / 10 = 0 := (decDigitsRev_eq_nil_iff _).1 h0.2
    have hmod : m % 10 = 0 :=
      digitChar_inj (Nat.mod_lt _ (by omega)) (by omega) (h0.1.trans rfl)
    omega
  · simp only [hm, hn, if_neg, not_false_iff] at hd
    have : (decDigitsRev m).reverse = (decDigitsRev n).reverse := hd
    exact decDigitsRev_inj m n (by simpa using this)

/-- `joinLines` distributes over list concatenation. -/
theorem joinLines_append (xs ys : List String) :
    joinLines (xs ++ ys) = joinLines xs ++ joinLines ys := by
  induction xs with
  | nil => simp [joinLines, String.empty_append]
  | cons l ls ih => simp [joinLines, ih, String.append_assoc]

/-- The excerpt-block text is the newline-join of the excerpt-block lines. -/
theorem blockStr_eq_joinLines (rs : List SearchResult) :
    ∀ i, blockStr i rs = joinLines (blockLines i rs) := by
  induction rs with
  | nil => intro i; rfl
  | cons r t ih =>
    intro i
    show "[Source " ++ natToDec (i + 1) ++ "] " ++ r.title ++ "\nURL: " ++ r.link ++
        "\nExcerpt: " ++ r.snippet ++ "\n\n" ++ blockStr (i + 1) t =
      joinLines (("[Source " ++ natToDec (i + 1) ++ "] " ++ r.title) ::
        ("URL: " ++ r.link) :: ("Excerpt: " ++ r.snippet) :: "" :: blockLines (i + 1) t)
    rw [ih]
    apply String.ext
    simp [joinLines, String.data_append, List.append_assoc]

/-- The source-reference text is the newline-join of the reference lines. -/
theorem refStr_eq_joinLines (rs : List SearchResult) :
    ∀ i, refStr i rs = joinLines (refLines i rs) := by
  induction rs with
  | nil => intro i; rfl
  | cons r t ih =>
    intro i
    show "[Source " ++ natToDec (i + 1) ++ ": " ++ r.title ++ " (" ++ r.link ++ ")]\n" ++
        refStr (i + 1) t =
      joinLines (refLine (i + 1) r :: refLines (i + 1) t)
    rw [ih]
    apply String.ext
    simp [joinLines, refLine, String.data_append, List.append_assoc]

/-- Joining lines ending in an empty line is `joinLines` of the rest. -/
theorem stringFromLines_concat_empty (L : List String) :
    stringFromLines (L ++ [""]) = joinLines L := by
  induction L with
  | nil => rfl
  | cons l ls ih =>
    cases ls with
    | nil => rfl
    | cons l2 ls2 =>
      have hstep : stringFromLines ((l :: l2 :: ls2) ++ [""]) =
          l ++ "\n" ++ stringFromLines ((l2 :: ls2) ++ [""]) := rfl
      rw [hstep, ih]
      rfl

/-- The context string for a non-empty result list is the newline-join of its
line-level view. -/
theorem getSearchContextFor_eq_lines (rs : List SearchResult) (h : rs ≠ []) :
    getSearchContextFor (some rs) = stringFromLines (contextLines rs) := by
  unfold getSearchContextFor contextLines
  simp only [h, if_neg, not_false_iff]
  rw [stringFromLines_concat_empty, joinLines_append, joinLines_append, joinLines_append,
    ← blockStr_eq_joinLines, ← refStr_eq_joinLines]
  have hhdr : ("Here is information from recent web searches:\n\n" : String) =
      joinLines ["Here is information from recent web searches:", ""] := rfl
  have hmid : midSegment =
      joinLines ["", "When citing sources in your response, please include the full source information as follows:",
        "For example, instead of just saying [Source 1], say [Source 1: Title of the Source (URL)].",
        "", "Sources for reference:"] := rfl
  rw [hhdr, hmid]

/-- Unfolding `splitNl` at a non-newline head character. -/
theorem splitNl_cons_ne {c : Char} (hc : c ≠ '\n') {rest l : List Char}
    {ls : List (List Char)} (h : splitNl rest = l :: ls) :
    splitNl (c :: rest) = (c :: l) :: ls := by
  conv_lhs => rw [splitNl]
  rw [if_neg hc, h]

/-- Splitting a newline-free character list yields a single chunk. -/
theorem splitNl_no_newline (a : List Char) (ha : '\n' ∈ a → False) : splitNl a = [a] := by
  induction a with
  | nil => rfl
  | cons c rest ih =>
    have hc : c ≠ '\n' := fun h => ha (h ▸ List.mem_cons_self c rest)
    exact splitNl_cons_ne hc (ih (fun h => ha (List.mem_cons_of_mem c h)))

/-- Splitting at the first newline separates the newline-free head chunk. -/
theorem splitNl_append (a b : List Char) (ha : '\n' ∈ a → False) :
    splitNl (a ++ '\n' :: b) = a :: splitNl b := by
  induction a with
  | nil =>
    show splitNl ('\n' :: b) = [] :: splitNl b
    conv_lhs => rw [splitNl]
    simp
  | cons c rest ih =>
    have hc : c ≠ '\n' := fun h => ha (h ▸ List.mem_cons_self c rest)
    have hrest := ih (fun h => ha (List.mem_cons_of_mem c h))
    show splitNl (c :: (rest ++ '\n' :: b)) = (c :: rest) :: splitNl b
    exact splitNl_cons_ne hc hrest

/-- For newline-free lines, `strLines` inverts `stringFromLines`. -/
theorem strLines_stringFromLines (L : List String) (hL : L ≠ [])
    (h : ∀ l ∈ L, '\n' ∈ l.data → False) :
    strLines (stringFromLines L) = L := by
  induction L with
  | nil => exact absurd rfl hL
  | cons l ls ih =>
    cases ls with
    | nil =>
      show strLines l = [l]
      unfold strLines
      rw [splitNl_no_newline l.data (h l (List.mem_cons_self _ _))]
      rfl
    | cons l2 ls2 =>
      have hdata : (stringFromLines (l :: l2 :: ls2)).data =
          l.data ++ '\n' :: (stringFromLines (l2 :: ls2)).data := by
        show (l ++ "\n" ++ stringFromLines (l2 :: ls2)).data = _
        simp [String.data_append, List.append_assoc]
      unfold strLines
      rw [hdata, splitNl_append _ _ (h l (List.mem_cons_self _ _))]
      have := ih (by simp) (fun x hx => h x (List.mem_cons_of_mem l hx))
      unfold strLines at this
      simp only [List.map_cons, this]

/-- Cancellation for character lists of the form
`digits ++ nonDigit :: rest`: the digit prefixes, the first non-digit
characters and the rests agree. -/
theorem digit_split (d₁ : List Char) : ∀ (d₂ r₁ r₂ : List Char) (c₁ c₂ : Char),
    (∀ c ∈ d₁, c.isDigit = true) → (∀ c ∈ d₂, c.isDigit = true) →
    c₁.isDigit = false → c₂.isDigit = false →
    d₁ ++ c₁ :: r₁ = d₂ ++ c₂ :: r₂ → d₁ = d₂ ∧ c₁ = c₂ ∧ r₁ = r₂ := by
  induction d₁ with
  | nil =>
    intro d₂ r₁ r₂ c₁ c₂ h1 h2 hc1 hc2 heq
    cases d₂ with
    | nil => simpa using heq
    | cons d ds =>
      exfalso
      simp only [List.nil_append, List.cons_append, List.cons.injEq] at heq
      have hd : d.isDigit = true := h2 d (List.mem_cons_self _ _)
      rw [← heq.1] at hd
      rw [hc1] at hd
      exact Bool.noConfusion hd
  | cons d ds ih =>
    intro d₂ r₁ r₂ c₁ c₂ h1 h2 hc1 hc2 heq
    cases d₂ with
    | nil =>
      exfalso
      simp only [List.nil_append, List.cons_append, List.cons.injEq] at heq
      have hd : d.isDigit = true := h1 d (List.mem_cons_self _ _)
      rw [heq.1] at hd
      rw [hc2] at hd
      exact Bool.noConfusion hd
    | cons d' ds' =>
      simp only [List.cons_append, List.cons.injEq] at heq
      obtain ⟨hdd, htail⟩ := heq
      obtain ⟨hds, hc, hr⟩ := ih ds' r₁ r₂ c₁ c₂
        (fun c hc => h1 c (List.mem_cons_of_mem d hc))
        (fun c hc => h2 c (List.mem_cons_of_mem d' hc)) hc1 hc2 htail
      exact ⟨by rw [hdd, hds], hc, hr⟩

/-- Two source-reference lines are equal only at the same 1-based index. -/
theorem refLine_inj_idx {k₁ k₂ : Nat} {r₁ r₂ : SearchResult}
    (h : refLine k₁ r₁ = refLine k₂ r₂) : k₁ = k₂ := by
  have hd := congrArg String.data h
  simp only [refLine, String.data_append, List.append_assoc, List.cons_append,
    List.nil_append, List.cons.injEq, true_and] at hd
  obtain ⟨hdeq, -, -⟩ := digit_split (natToDec k₁).data (natToDec k₂).data _ _ ':' ':'
    (natToDec_digits k₁) (natToDec_digits k₂) (by decide) (by decide) hd
  exact natToDec_inj (String.ext hdeq)

/-- A source-reference line never equals an excerpt-block header line. -/
theorem refLine_ne_blockHead (k j : Nat) (r r' : SearchResult) :
    refLine k r ≠ "[Source " ++ natToDec j ++ "] " ++ r'.title := by
  intro h
  have hd := congrArg String.data h
  simp only [refLine, String.data_append, List.append_assoc, List.cons_append,
    List.nil_append, List.cons.injEq, true_and] at hd
  obtain ⟨-, hc, -⟩ := digit_split (natToDec k).data (natToDec j).data _ _ ':' ']'
    (natToDec_digits k) (natToDec_digits j) (by decide) (by decide) hd
  exact absurd hc (by decide)

/-- A source-reference line starts with `[` and therefore differs from any
string whose character data does not start with `[`. -/
theorem refLine_data_head (k : Nat) (r : SearchResult) :
    (refLine k r).data.head? = some '[' := by
  simp [refLine, String.data_append]

/-- Strings with different first characters differ. -/
theorem ne_of_head_ne {s t : String} (h : s.data.head? ≠ t.data.head?) : s ≠ t :=
  fun he => h (congrArg (fun u => u.data.head?) he)

/-- Shape of the members of `blockLines`. -/
theorem mem_blockLines {x : String} :
    ∀ (rs : List SearchResult) (i : Nat), x ∈ blockLines i rs →
      (∃ j r', r' ∈ rs ∧ x = "[Source " ++ natToDec (i + j + 1) ++ "] " ++ SearchResult.title r') ∨
      (∃ r' ∈ rs, x = "URL: " ++ SearchResult.link r') ∨
      (∃ r' ∈ rs, x = "Excerpt: " ++ SearchResult.snippet r') ∨ x = "" := by
  intro rs
  induction rs with
  | nil => intro i h; simp [blockLines] at h
  | cons r t ih =>
    intro i h
    simp only [blockLines, List.mem_cons] at h
    rcases h with rfl | rfl | rfl | rfl | h
    · exact Or.inl ⟨0, r, List.mem_cons_self _ _, rfl⟩
    · exact Or.inr (Or.inl ⟨r, List.mem_cons_self _ _, rfl⟩)
    · exact Or.inr (Or.inr (Or.inl ⟨r, List.mem_cons_self _ _, rfl⟩))
    · exact Or.inr (Or.inr (Or.inr rfl))
    · rcases ih (i + 1) h with ⟨j, r', hr', hx⟩ | ⟨r', hr', hx⟩ | ⟨r', hr', hx⟩ | hx
      · refine Or.inl ⟨j + 1, r', List.mem_cons_of_mem r hr', ?_⟩
        rw [hx]
        have harg : i + 1 + j + 1 = i + (j + 1) + 1 := by omega
        rw [harg]
      · exact Or.inr (Or.inl ⟨r', List.mem_cons_of_mem r hr', hx⟩)
      · exact Or.inr (Or.inr (Or.inl ⟨r', List.mem_cons_of_mem r hr', hx⟩))
      · exact Or.inr (Or.inr (Or.inr hx))

/-- Shape of the members of `refLines`. -/
theorem mem_refLines {x : String} :
    ∀ (rs : List SearchResult) (i : Nat), x ∈ refLines i rs →
      ∃ j r', j < rs.length ∧ r' ∈ rs ∧ x = refLine (i + j + 1) r' := by
  intro rs
  induction rs with
  | nil => intro i h; simp [refLines] at h
  | cons r t ih =>
    intro i h
    simp only [refLines, List.mem_cons] at h
    rcases h with rfl | h
    · exact ⟨0, r, by simp, List.mem_cons_self _ _, rfl⟩
    · obtain ⟨j, r', hj, hr', hx⟩ := ih (i + 1) h
      refine ⟨j + 1, r', by simpa using Nat.succ_lt_succ hj,
        List.mem_cons_of_mem r hr', ?_⟩
      rw [hx]
      have harg : i + 1 + j + 1 = i + (j + 1) + 1 := by omega
      rw [harg]

/-- A source-reference line never occurs among the excerpt-block lines. -/
theorem refLine_not_mem_blockLines (k : Nat) (r0 : SearchResult)
    (rs : List SearchResult) (i : Nat) : refLine k r0 ∈ blockLines i rs → False := by
  intro h
  rcases mem_blockLines rs i h with ⟨j, r', hr', hx⟩ | ⟨r', hr', hx⟩ | ⟨r', hr', hx⟩ | hx
  · exact refLine_ne_blockHead k (i + j + 1) r0 r' hx
  · exact ne_of_head_ne (by rw [refLine_data_head]; simp [String.data_append]) hx
  · exact ne_of_head_ne (by rw [refLine_data_head]; simp [String.data_append]) hx
  · exact ne_of_head_ne (by rw [refLine_data_head]; simp) hx

/-- Counting a source-reference line among the reference lines: the line of
the `k`-th element occurs exactly once. -/
theorem count_refLines (rs : List SearchResult) :
    ∀ (i k : Nat) (hk : k < rs.length),
      (refLines i rs).count (refLine (i + k + 1) (rs.get ⟨k, hk⟩)) = 1 := by
  induction rs with
  | nil => intro i k hk; exact absurd hk (by simp)
  | cons r t ih =>
    intro i k hk
    cases k with
    | zero =>
      show (refLine (i + 1) r :: refLines (i + 1) t).count (refLine (i + 0 + 1) r) = 1
      have hnot : refLine (i + 0 + 1) r ∈ refLines (i + 1) t → False := by
        intro hmem
        obtain ⟨j, r', hj, hr', hx⟩ := mem_refLines t (i + 1) hmem
        have := refLine_inj_idx hx
        omega
      rw [List.count_cons]
      rw [List.count_eq_zero.2 hnot]
      simp
    | succ k' =>
      have hk' : k' < t.length := by simpa using hk
      show (refLine (i + 1) r :: refLines (i + 1) t).count
        (refLine (i + (k' + 1) + 1) (t.get ⟨k', hk'⟩)) = 1
      rw [List.count_cons]
      have hih := ih (i + 1) k' hk'
      have harg : (i + 1) + k' + 1 = i + (k' + 1) + 1 := by omega
      rw [harg] at hih
      rw [hih]
      have hb : ¬(refLine (i + 1) r = refLine (i + (k' + 1) + 1) (t.get ⟨k', hk'⟩)) :=
        fun hx => absurd (refLine_inj_idx hx) (by omega)
      simpa using hb

/-- The reference lines list the elements in input order under the 1-based
indices `1..N`. -/
theorem refLines_eq_ofFn (rs : List SearchResult) :
    ∀ i, refLines i rs =
      List.ofFn (fun j : Fin rs.length => refLine (i + j.1 + 1) (rs.get j)) := by
  induction rs with
  | nil => intro i; simp [refLines]
  | cons r t ih =>
    intro i
    rw [List.ofFn_succ]
    refine congrArg₂ List.cons rfl ?_
    rw [show refLines (i + 1) t =
      List.ofFn (fun j : Fin t.length => refLine ((i + 1) + j.1 + 1) (t.get j)) from ih (i + 1)]
    refine congrArg List.ofFn ?_
    funext j
    have harg : i + 1 + j.1 + 1 = i + (j.1 + 1) + 1 := by omega
    rw [harg]
    rfl

/-- No character of a source-reference or excerpt-block line of a
newline-free result is a newline. -/
theorem contextLines_no_newline (rs : List SearchResult)
    (hnl : ∀ r ∈ rs, noNewlines r) :
    ∀ l ∈ contextLines rs, '\n' ∈ l.data → False := by
  intro l hl hmem
  have hdig : ∀ (n : Nat), '\n' ∈ (natToDec n).data → False := by
    intro n hn
    have := natToDec_digits n '\n' hn
    exact Bool.noConfusion this
  unfold contextLines at hl
  rcases List.mem_append.1 hl with h4 | h5
  · rcases List.mem_append.1 h4 with h3 | hrl
    · rcases List.mem_append.1 h3 with h2 | hB
      · rcases List.mem_append.1 h2 with hA | hbl
        · simp only [List.mem_cons, List.not_mem_nil, or_false] at hA
          rcases hA with rfl | rfl <;> revert hmem <;> decide
        · rcases mem_blockLines rs 0 hbl with ⟨j, r', hr', hx⟩ | ⟨r', hr', hx⟩ | ⟨r', hr', hx⟩ | hx
          · subst hx
            simp only [String.data_append, List.mem_append] at hmem
            rcases hmem with ((hm | hm) | hm) | hm
            · revert hm; decide
            · exact hdig _ hm
            · revert hm; decide
            · exact (hnl r' hr').1 hm
          · subst hx
            simp only [String.data_append, List.mem_append] at hmem
            rcases hmem with hm | hm
            · revert hm; decide
            · exact (hnl r' hr').2.1 hm
          · subst hx
            simp only [String.data_append, List.mem_append] at hmem
            rcases hmem with hm | hm
            · revert hm; decide
            · exact (hnl r' hr').2.2 hm
          · subst hx; revert hmem; decide
      · simp only [List.mem_cons, List.not_mem_nil, or_false] at hB
        rcases hB with rfl | rfl | rfl | rfl | rfl <;> revert hmem <;> decide
    · obtain ⟨j, r', hj, hr', hx⟩ := mem_refLines rs 0 hrl
      subst hx
      unfold refLine at hmem
      simp only [String.data_append, List.mem_append] at hmem
      rcases hmem with (((((hm | hm) | hm) | hm) | hm) | hm) | hm
      · revert hm; decide
      · exact hdig _ hm
      · revert hm; decide
      · exact (hnl r' hr').1 hm
      · revert hm; decide
      · exact (hnl r' hr').2.1 hm
      · revert hm; decide
  · simp only [List.mem_singleton] at h5
    subst h5
    revert hmem
    decide

/-- The `k`-th source-reference line occurs exactly once among all lines of
the context string. -/
theorem count_contextLines (rs : List SearchResult) (k : Nat)
    (hk : k < rs.length) :
    (contextLines rs).count (refLine (k + 1) (rs.get ⟨k, hk⟩)) = 1 := by
  have hhead := refLine_data_head (k + 1) (rs.get ⟨k, hk⟩)
  have hne : ∀ s : String, s.data.head? ≠ some '[' →
      refLine (k + 1) (rs.get ⟨k, hk⟩) ≠ s := by
    intro s hs
    exact ne_of_head_ne (by rw [hhead]; exact fun he => hs he.symm)
  unfold contextLines
  rw [List.count_append, List.count_append, List.count_append, List.count_append]
  have c1 : List.count (refLine (k + 1) (rs.get ⟨k, hk⟩))
      ["Here is information from recent web searches:", ""] = 0 := by
    apply List.count_eq_zero.2
    intro hm
    rcases List.mem_cons.1 hm with h | hm2
    · exact hne _ (by decide) h
    · rcases List.mem_cons.1 hm2 with h | hm3
      · exact hne _ (by decide) h
      · simp at hm3
  have c2 : List.count (refLine (k + 1) (rs.get ⟨k, hk⟩)) (blockLines 0 rs) = 0 :=
    List.count_eq_zero.2 (refLine_not_mem_blockLines _ _ rs 0)
  have c3 : List.count (refLine (k + 1) (rs.get ⟨k, hk⟩))
      ["", "When citing sources in your response, please include the full source information as follows:",
       "For example, instead of just saying [Source 1], say [Source 1: Title of the Source (URL)].",
       "", "Sources for reference:"] = 0 := by
    apply List.count_eq_zero.2
    intro hm
    simp only [List.mem_cons, List.not_mem_nil, or_false] at hm
    rcases hm with h | h | h | h | h <;> exact hne _ (by decide) h
  have c4 : List.count (refLine (k + 1) (rs.get ⟨k, hk⟩)) (refLines 0 rs) = 1 := by
    have := count_refLines rs 0 k hk
    simpa using this
  have c5 : List.count (refLine (k + 1) (rs.get ⟨k, hk⟩)) [""] = 0 := by
    apply List.count_eq_zero.2
    intro hm
    rcases List.mem_cons.1 hm with h | hm2
    · exact hne _ (by decide) h
    · simp at hm2
  rw [c1, c2, c3, c4, c5]

/-- C9: `get_search_context` applied to a `None` or empty result list returns
the fixed `No relevant search results found.` sentinel; for a non-empty
result list (with newline-free fields, so that lines are well defined) the
output is the newline-join of `contextLines`, whose genuine line
decomposition it is, the source-reference lines list the elements under the
1-based indices `1..N` in input order, and the reference line of the `k`-th
element occurs exactly once among all lines of the output. -/
theorem getSearchContext_sources (rs : List SearchResult) (k : Nat)
    (hk : k < rs.length) (hrs : rs ≠ [])
    (hnl : ∀ r ∈ rs, noNewlines r) :
    getSearchContextFor none = "No relevant search results found." ∧
    getSearchContextFor (some []) = "No relevant search results found." ∧
    getSearchContextFor (some rs) = stringFromLines (contextLines rs) ∧
    strLines (getSearchContextFor (some rs)) = contextLines rs ∧
    refLines 0 rs = List.ofFn (fun j : Fin rs.length => refLine (j.1 + 1) (rs.get j)) ∧
    (contextLines rs).count (refLine (k + 1) (rs.get ⟨k, hk⟩)) = 1 := by
  refine ⟨rfl, rfl, getSearchContextFor_eq_lines rs hrs, ?_, ?_,
    count_contextLines rs k hk⟩
  · rw [getSearchContextFor_eq_lines rs hrs]
    apply strLines_stringFromLines
    · simp [contextLines]
    · exact contextLines_no_newline rs hnl
  · rw [refLines_eq_ofFn rs 0]
    refine congrArg List.ofFn ?_
    funext j
    have harg : 0 + j.1 + 1 = j.1 + 1 := by omega
    rw [harg]

/-- Witness for C9 at a concrete two-element result list (`k = 1`). -/
theorem getSearchContext_sources_witness :
    getSearchContextFor none = "No relevant search results found." ∧
    getSearchContextFor (some []) = "No relevant search results found." ∧
    getSearchContextFor (some [⟨"T1", "L1", "S1", none⟩, ⟨"T2", "L2", "S2", none⟩]) =
      stringFromLines (contextLines [⟨"T1", "L1", "S1", none⟩, ⟨"T2", "L2", "S2", none⟩]) ∧
    strLines (getSearchContextFor
        (some [⟨"T1", "L1", "S1", none⟩, ⟨"T2", "L2", "S2", none⟩])) =
      contextLines [⟨"T1", "L1", "S1", none⟩, ⟨"T2", "L2", "S2", none⟩] ∧
    refLines 0 [⟨"T1", "L1", "S1", none⟩, ⟨"T2", "L2", "S2", none⟩] =
      List.ofFn (fun j : Fin ([⟨"T1", "L1", "S1", none⟩,
          (⟨"T2", "L2", "S2", none⟩ : SearchResult)].length) =>
        refLine (j.1 + 1) ([⟨"T1", "L1", "S1", none⟩,
          (⟨"T2", "L2", "S2", none⟩ : SearchResult)].get j)) ∧
    (contextLines [⟨"T1", "L1", "S1", none⟩, ⟨"T2", "L2", "S2", none⟩]).count
      (refLine (1 + 1) ([⟨"T1", "L1", "S1", none⟩,
        (⟨"T2", "L2", "S2", none⟩ : SearchResult)].get ⟨1, by decide⟩)) = 1 :=
  getSearchContext_sources
    [⟨"T1", "L1", "S1", none⟩, ⟨"T2", "L2", "S2", none⟩] 1
    (by decide) (by decide) (by decide)

end Nexus360
